import Mathlib

/-!
Formal model of the grid-editing core of the ozx image atlas editor
backend (`src/backend/app.py`): the `ImageStore` registry, the per-cell
operation log, and the `Renderer` that reconstructs single cells and the
full atlas from the original pixels plus the replayed operation log.

Conventions of the embedding:
* a decoded image is a `width × height` grid of RGBA samples; the PNG
  save/reopen round trip performed by `store_image`/`get_image` is
  lossless for RGBA data and is therefore elided (the store holds the
  decoded RGBA buffer directly);
* Python dicts are modelled as association lists with insert-or-replace
  and remove; the modelled code never iterates over a dict, so only
  `lookup` observations matter;
* Python raising `ZeroDivisionError` / `KeyError` is modelled by an
  explicit error constructor (`Option`/outcome types), since the Flask
  handlers do not catch these exceptions.
-/

/-- One RGBA sample, each channel an 8-bit value (the channel range plays
no role in the modelled code paths). -/
structure Pixel where
  r : Nat
  g : Nat
  b : Nat
  a : Nat
deriving DecidableEq, Repr

/-- The fill colour `(0, 0, 0, 0)` used by `Image.new` and as
`fillcolor` in every `rotate` call of `app.py`. -/
def transparent : Pixel := ⟨0, 0, 0, 0⟩

/-- A decoded RGBA pixel buffer. `px` is total; samples outside
`[0, width) × [0, height)` are irrelevant to every operation and are kept
`transparent` by all constructors below. -/
structure Img where
  width : Nat
  height : Nat
  px : Nat → Nat → Pixel

/-- `Image.new('RGBA', (w, h), c)`: a `w × h` buffer uniformly filled
with colour `c`. -/
def Img.new (w h : Nat) (c : Pixel) : Img := ⟨w, h, fun _ _ => c⟩

/-- `image.crop((x, y, x + w, y + h))`: the `w × h` sub-rectangle whose
top-left corner is `(x, y)`. PIL fills any part of the crop box lying
outside the source image with zeros, i.e. transparent RGBA. -/
def Img.crop (img : Img) (x y w h : Nat) : Img :=
  ⟨w, h, fun dx dy =>
    if dx < w ∧ dy < h ∧ x + dx < img.width ∧ y + dy < img.height then
      img.px (x + dx) (y + dy)
    else transparent⟩

/-- `dst.paste(src, (x, y))`: overwrite (never blend) the rectangle of
`dst` whose top-left corner is `(x, y)` with the pixels of `src`; the
destination size is unchanged. -/
def Img.paste (dst src : Img) (x y : Nat) : Img :=
  ⟨dst.width, dst.height, fun u v =>
    if x ≤ u ∧ u < x + src.width ∧ y ≤ v ∧ v < y + src.height then
      src.px (u - x) (v - y)
    else dst.px u v⟩

/-- Rotation degrees accepted by the `apply_cell_operation` handler
(`degree in [90, 180, 270]`); the spec's data model restricts `Rotate`
payloads to exactly these values. -/
inductive Degree
  | d90
  | d180
  | d270
deriving DecidableEq, Repr

/-- A validated cell operation, as stored in the per-cell log: the dicts
`\x7b'type': 'erase'\x7d` and `\x7b'type': 'rotate', 'degree': d\x7d`. -/
inductive Op
  | erase
  | rotate (degree : Degree)
deriving DecidableEq, Repr

/-- `image.rotate(-degree, expand=False, fillcolor=(0, 0, 0, 0))`:
clockwise rotation about the centre, output frame of the same
`width × height`, exposed area filled transparent.

PIL dispatches `degree = 180` (and `90`/`270` on square frames) to an
exact pixel transposition. For `90`/`270` on a non-square frame it uses a
nearest-neighbour inverse affine map about the centre `(w/2, h/2)`; that
map is modelled here with exact trigonometric values (0 and ±1), so each
output pixel samples input coordinates
`(floor xin, floor yin)` when those lie inside the frame and is the
transparent fill colour otherwise. (Real PIL computes the same map in
floating point; the theorems below use only the 180° case, which is
exact, and the sample-or-fill structure, which holds for any sampling
map.) -/
def rotCW (d : Degree) (img : Img) : Img :=
  let w := img.width
  let h := img.height
  match d with
  | .d180 =>
      ⟨w, h, fun x y =>
        if x < w ∧ y < h then img.px (w - 1 - x) (h - 1 - y) else transparent⟩
  | .d90 =>
      ⟨w, h, fun x y =>
        if x < w ∧ y < h then
          let sx : Int := Int.fdiv (2 * (y : Int) + 1 + (w : Int) - (h : Int)) 2
          let sy : Int := Int.fdiv ((w : Int) + (h : Int) - 2 * (x : Int) - 1) 2
          if 0 ≤ sx ∧ sx < (w : Int) ∧ 0 ≤ sy ∧ sy < (h : Int) then
            img.px sx.toNat sy.toNat
          else transparent
        else transparent⟩
  | .d270 =>
      ⟨w, h, fun x y =>
        if x < w ∧ y < h then
          let sx : Int := Int.fdiv ((w : Int) + (h : Int) - 2 * (y : Int) - 1) 2
          let sy : Int := Int.fdiv (2 * (x : Int) + 1 + (h : Int) - (w : Int)) 2
          if 0 ≤ sx ∧ sx < (w : Int) ∧ 0 ≤ sy ∧ sy < (h : Int) then
            img.px sx.toNat sy.toNat
          else transparent
        else transparent⟩

/-- One iteration of the replay loop in `Renderer.render_cell` /
`Renderer.render_atlas`: `erase` replaces the working image by a fresh
fully transparent `cellWidth × cellHeight` buffer; `rotate` rotates the
working image clockwise in place. -/
def applyOp (cellWidth cellHeight : Nat) (cell : Img) : Op → Img
  | .erase => Img.new cellWidth cellHeight transparent
  | .rotate d => rotCW d cell

namespace alist

variable {α : Type} {β : Type} [DecidableEq α]

/-- Python `d.get(k)`: the value stored at the key, if any. -/
def lookup : List (α × β) → α → Option β
  | [], _ => none
  | (k, v) :: rest, key => if key = k then some v else lookup rest key

/-- Python `d.pop(k, None)` (observed through `lookup`): remove every
binding of the key. -/
def remove : List (α × β) → α → List (α × β)
  | [], _ => []
  | (k, v) :: rest, key =>
      if k = key then remove rest key else (k, v) :: remove rest key

/-- Python `d[k] = v` (observed through `lookup`): bind the key to the
value, replacing any previous binding. -/
def insert (l : List (α × β)) (k : α) (v : β) : List (α × β) :=
  (k, v) :: remove l k

end alist

/-- The grid dictionary stored by `slice_image`:
`\x7b'rows': …, 'cols': …, 'cellWidth': …, 'cellHeight': …\x7d`. -/
structure Grid where
  rows : Nat
  cols : Nat
  cellWidth : Nat
  cellHeight : Nat
deriving DecidableEq, Repr

/-- The mutable registry of `app.py`'s `ImageStore`: `image_paths` maps
an image id to its stored RGBA buffer (the temporary-file indirection and
PNG encoding, both lossless, are elided), `grid_params` maps an id to its
grid dictionary, and `cell_ops` maps an id to the per-cell operation
logs. -/
structure Store where
  image_paths : List (String × Img)
  grid_params : List (String × Grid)
  cell_ops : List (String × List (Nat × List Op))

/-- A fresh `ImageStore()`: all three dicts empty. -/
def emptyStore : Store := ⟨[], [], []⟩

/-- `ImageStore.store_image` (with the freshly generated uuid passed in
explicitly): saves the RGBA-converted image and initialises the entry's
per-cell operation log table to the empty dict. -/
def Store.store_image (s : Store) (image_id : String) (image : Img) : Store :=
  { s with
    image_paths := alist.insert s.image_paths image_id image
    cell_ops := alist.insert s.cell_ops image_id [] }

/-- `ImageStore.get_image`: reopen the stored buffer, `none` when the id
has no stored image. -/
def Store.get_image (s : Store) (image_id : String) : Option Img :=
  alist.lookup s.image_paths image_id

/-- `ImageStore.delete_image`: pop the image, the grid parameters and the
whole per-cell log table for the id. The Python method returns `True`
unconditionally, whether or not the id was present. -/
def Store.delete_image (s : Store) (image_id : String) : Bool × Store :=
  (true,
    { image_paths := alist.remove s.image_paths image_id
      grid_params := alist.remove s.grid_params image_id
      cell_ops := alist.remove s.cell_ops image_id })

/-- `ImageStore.set_grid_params`: `self.grid_params[image_id] = params`. -/
def Store.set_grid_params (s : Store) (image_id : String) (params : Grid) : Store :=
  { s with grid_params := alist.insert s.grid_params image_id params }

/-- `ImageStore.get_grid_params`: `self.grid_params.get(image_id)`. -/
def Store.get_grid_params (s : Store) (image_id : String) : Option Grid :=
  alist.lookup s.grid_params image_id

/-- `ImageStore.add_cell_op`: appends `op` to the cell's log, creating
the log on first use. Evaluating `self.cell_ops[image_id]` raises
`KeyError` (modelled as `none`) when the id has no entry in `cell_ops`
(never stored, or already deleted). -/
def Store.add_cell_op (s : Store) (image_id : String) (cell_id : Nat) (op : Op) :
    Option Store :=
  match alist.lookup s.cell_ops image_id with
  | none => none
  | some table =>
      let log := (alist.lookup table cell_id).getD []
      some { s with
        cell_ops :=
          alist.insert s.cell_ops image_id
            (alist.insert table cell_id (log ++ [op])) }

/-- `ImageStore.get_cell_ops`:
`self.cell_ops.get(image_id, \x7b\x7d).get(cell_id, [])`. -/
def Store.get_cell_ops (s : Store) (image_id : String) (cell_id : Nat) : List Op :=
  (alist.lookup ((alist.lookup s.cell_ops image_id).getD []) cell_id).getD []

/-- `ImageStore.undo_cell_op`: when the id is known, the cell has a log
and the log is non-empty, pop the last entry and report `True`; otherwise
report `False` and change nothing. -/
def Store.undo_cell_op (s : Store) (image_id : String) (cell_id : Nat) :
    Bool × Store :=
  match alist.lookup s.cell_ops image_id with
  | none => (false, s)
  | some table =>
      match alist.lookup table cell_id with
      | none => (false, s)
      | some log =>
          if log = [] then (false, s)
          else
            (true,
              { s with
                cell_ops :=
                  alist.insert s.cell_ops image_id
                    (alist.insert table cell_id log.dropLast) })

/-- Result of `Renderer.render_cell`: `notFound` models the Python
`None` return (missing image or missing grid parameters, surfaced by the
route as HTTP 404), `zeroDivisionError` models the uncaught exception
raised by `cell_id // cols` when the stored grid has `cols = 0`, and
`ok` carries the rendered cell (returned PNG-encoded, losslessly). -/
inductive RenderResult
  | notFound
  | zeroDivisionError
  | ok (cell : Img)

/-- Whether a render result is the `None` / HTTP 404 outcome. -/
def RenderResult.isNotFound : RenderResult → Bool
  | .notFound => true
  | _ => false

/-- The cell pipeline shared verbatim by `Renderer.render_cell` and the
loop body of `Renderer.render_atlas`: crop the cell rectangle
`(x, y, x + cellWidth, y + cellHeight)` with `x = col * cellWidth`,
`y = row * cellHeight` from the original, then replay the cell's
operation log in append order. -/
def renderCellPure (s : Store) (image_id : String) (image : Img) (g : Grid)
    (cell_id row col : Nat) : Img :=
  let x := col * g.cellWidth
  let y := row * g.cellHeight
  let cell0 := image.crop x y g.cellWidth g.cellHeight
  (s.get_cell_ops image_id cell_id).foldl (applyOp g.cellWidth g.cellHeight) cell0

/-- `Renderer.render_cell`: `None` when the image or the grid parameters
are missing; otherwise decode the cell index as
`row = cell_id // cols`, `col = cell_id % cols` (raising
`ZeroDivisionError` when `cols = 0`), crop and replay. -/
def Renderer.render_cell (s : Store) (image_id : String) (cell_id : Nat) :
    RenderResult :=
  match s.get_image image_id, s.get_grid_params image_id with
  | some image, some g =>
      if g.cols = 0 then .zeroDivisionError
      else
        .ok (renderCellPure s image_id image g cell_id
          (cell_id / g.cols) (cell_id % g.cols))
  | _, _ => .notFound

/-- Row-major traversal order of the two nested loops
`for row in range(rows): for col in range(cols):`. -/
def cellList (rows cols : Nat) : List (Nat × Nat) :=
  (List.range rows).flatMap fun row =>
    (List.range cols).map fun col => (row, col)

/-- Loop body of `Renderer.render_atlas` for one `(row, col)` pair: the
cell with id `row * cols + col` is cropped at `(col * cellWidth,
row * cellHeight)`, its log replayed (the exact `render_cell` pipeline),
and the result pasted back at the same offset. -/
def atlasStep (s : Store) (image_id : String) (image : Img) (g : Grid)
    (acc : Img) (rc : Nat × Nat) : Img :=
  acc.paste
    (renderCellPure s image_id image g (rc.1 * g.cols + rc.2) rc.1 rc.2)
    (rc.2 * g.cellWidth) (rc.1 * g.cellHeight)

/-- Body of `Renderer.render_atlas` after the lookups: a
`(cols * cellWidth) × (rows * cellHeight)` canvas initialised fully
transparent, into which every cell is pasted, in row-major order, at
`(col * cellWidth, row * cellHeight)`. -/
def atlasPure (s : Store) (image_id : String) (image : Img) (g : Grid) : Img :=
  (cellList g.rows g.cols).foldl (atlasStep s image_id image g)
    (Img.new (g.cols * g.cellWidth) (g.rows * g.cellHeight) transparent)

/-- `Renderer.render_atlas`: `None` when the image or the grid
parameters are missing, else the assembled atlas. -/
def Renderer.render_atlas (s : Store) (image_id : String) : Option Img :=
  match s.get_image image_id, s.get_grid_params image_id with
  | some image, some g => some (atlasPure s image_id image g)
  | _, _ => none

/-- JSON body of a slice request; a field is `none` when the key is
absent from the request dict. -/
structure SliceRequest where
  rows : Option Nat
  cols : Option Nat
  cellWidth : Option Nat
  cellHeight : Option Nat

/-- One entry of the `cells` list returned by `slice_image`. -/
structure CellInfo where
  cellId : Nat
  row : Nat
  col : Nat
  x : Nat
  y : Nat
  w : Nat
  h : Nat
deriving DecidableEq, Repr

/-- The `cells` list built by `slice_image`: row-major, one entry per
cell with its id, row/col and pixel rectangle. -/
def mkCells (g : Grid) : List CellInfo :=
  (List.range g.rows).flatMap fun row =>
    (List.range g.cols).map fun col =>
      ⟨row * g.cols + col, row, col,
        col * g.cellWidth, row * g.cellHeight, g.cellWidth, g.cellHeight⟩

/-- Observable outcome of the `slice_image` route: HTTP 404 for an
unknown id, HTTP 400 with the `Must provide either rows/cols or
cellWidth/cellHeight` error when neither parameter pair is present, an
uncaught `ZeroDivisionError` (HTTP 500) when a supplied divisor is zero,
and HTTP 200 with the stored grid and the cell list on success. -/
inductive SliceOutcome
  | notFound
  | invalidGridParameters
  | zeroDivisionError
  | ok (g : Grid) (cells : List CellInfo)
deriving DecidableEq, Repr

/-- The `slice_image` route: look the image up (404 on failure), derive
the full grid from whichever parameter pair is present — preferring
`rows`/`cols`, with the other pair computed by integer floor division —
store it, and return it with the cell list. Dividing by a zero `cols`,
`rows`, `cellWidth` or `cellHeight` raises `ZeroDivisionError` before
anything is stored. -/
def slice_image (s : Store) (image_id : String) (data : SliceRequest) :
    SliceOutcome × Store :=
  match s.get_image image_id with
  | none => (.notFound, s)
  | some image =>
      match data.rows, data.cols with
      | some rows, some cols =>
          if cols = 0 ∨ rows = 0 then (.zeroDivisionError, s)
          else
            let g : Grid := ⟨rows, cols, image.width / cols, image.height / rows⟩
            (.ok g (mkCells g), s.set_grid_params image_id g)
      | _, _ =>
          match data.cellWidth, data.cellHeight with
          | some cw, some ch =>
              if cw = 0 ∨ ch = 0 then (.zeroDivisionError, s)
              else
                let g : Grid := ⟨image.height / ch, image.width / cw, cw, ch⟩
                (.ok g (mkCells g), s.set_grid_params image_id g)
          | _, _ => (.invalidGridParameters, s)

/-- JSON body of an operation request. -/
structure OpRequest where
  type : Option String
  degree : Option Nat

/-- Observable outcome of the `apply_cell_operation` route:
`invalidRotationDegree` and `invalidOperationType` are the two HTTP 400
validation errors, `keyError` is the uncaught exception (HTTP 500)
raised inside `add_cell_op` when the id has no `cell_ops` entry, and
`ok` is the HTTP 200 acknowledgement. -/
inductive ApplyOutcome
  | invalidRotationDegree
  | invalidOperationType
  | keyError
  | ok
deriving DecidableEq, Repr

/-- The `apply_cell_operation` route: validate the operation dict
(`erase`, or `rotate` with degree in `[90, 180, 270]`), then hand the
validated operation to `store.add_cell_op`. -/
def apply_cell_operation (s : Store) (image_id : String) (cell_id : Nat)
    (data : OpRequest) : ApplyOutcome × Store :=
  if data.type = some "erase" then
    match s.add_cell_op image_id cell_id .erase with
    | some s2 => (.ok, s2)
    | none => (.keyError, s)
  else if data.type = some "rotate" then
    match data.degree with
    | some 90 =>
        (match s.add_cell_op image_id cell_id (.rotate .d90) with
         | some s2 => (.ok, s2)
         | none => (.keyError, s))
    | some 180 =>
        (match s.add_cell_op image_id cell_id (.rotate .d180) with
         | some s2 => (.ok, s2)
         | none => (.keyError, s))
    | some 270 =>
        (match s.add_cell_op image_id cell_id (.rotate .d270) with
         | some s2 => (.ok, s2)
         | none => (.keyError, s))
    | _ => (.invalidRotationDegree, s)
  else (.invalidOperationType, s)

/-- Observable outcome of the `get_image_preview` route: 404 when the id
has no stored image file, else the stored image bytes. -/
inductive PreviewOutcome
  | notFound
  | ok (image : Img)

/-- The `get_image_preview` route: serve the stored image file, 404 when
`store.image_paths` has no path for the id. -/
def get_image_preview (s : Store) (image_id : String) : PreviewOutcome :=
  match alist.lookup s.image_paths image_id with
  | some image => .ok image
  | none => .notFound

/-- The `get_cell_preview` route: delegate to `Renderer.render_cell`;
the `None` result becomes HTTP 404 (`Cell not found`), rendered bytes
are served as PNG. -/
def get_cell_preview (s : Store) (image_id : String) (cell_id : Nat) :
    RenderResult :=
  Renderer.render_cell s image_id cell_id

/-! ### Concrete fixtures used by witnesses and counterexamples -/

/-- A concrete 2×2 RGBA test image with pairwise distinct pixels. -/
def testImg : Img := ⟨2, 2, fun x y => ⟨x + 1, y + 2, 10 * x + y, 255⟩⟩

/-- A store holding exactly one freshly uploaded image under id `img`. -/
def oneStore : Store := emptyStore.store_image "img" testImg

/-- The store obtained by uploading the test image, slicing it 2×2 and
then deleting it. -/
def c2Deleted : Store :=
  (((emptyStore.store_image "img" testImg).set_grid_params "img"
      ⟨2, 2, 1, 1⟩).delete_image "img").snd

/-- Witness store for C4/C5: the test image sliced into a 2×2 grid of
1×1 cells, with an erase-then-rotate log on cell 3 and no other logs. -/
def gridStore : Store :=
  { image_paths := [("img", testImg)]
    grid_params := [("img", ⟨2, 2, 1, 1⟩)]
    cell_ops := [("img", [(3, [Op.erase, Op.rotate Degree.d90])])] }

/-- Store for the C3 counterexample: a stored 2×2 image whose grid is a
single 1×1 cell, so every index ≥ 1 is out of range. -/
def c3Store : Store :=
  { image_paths := [("img", testImg)]
    grid_params := [("img", ⟨1, 1, 1, 1⟩)]
    cell_ops := [("img", [])] }

/-! ### Lookup laws of the dict model -/

namespace alist

variable {α : Type} {β : Type} [DecidableEq α]

theorem lookup_remove_self (l : List (α × β)) (k : α) :
    lookup (remove l k) k = none := by
  induction l with
  | nil => rfl
  | cons hd tl ih =>
      obtain ⟨k', v⟩ := hd
      by_cases h : k' = k
      · simp [remove, h, ih]
      · simp [remove, lookup, h, Ne.symm h, ih]

theorem lookup_remove_ne (l : List (α × β)) (k k' : α) (h : k' ≠ k) :
    lookup (remove l k) k' = lookup l k' := by
  induction l with
  | nil => rfl
  | cons hd tl ih =>
      obtain ⟨k₀, v⟩ := hd
      by_cases h0 : k₀ = k
      · subst h0
        simp [remove, lookup, h, ih]
      · by_cases h1 : k' = k₀ <;> simp [remove, lookup, h0, h1, ih]

theorem lookup_insert_self (l : List (α × β)) (k : α) (v : β) :
    lookup (insert l k v) k = some v := by
  simp [insert, lookup]

theorem lookup_insert_ne (l : List (α × β)) (k k' : α) (v : β) (h : k' ≠ k) :
    lookup (insert l k v) k' = lookup l k' := by
  simp [insert, lookup, h, lookup_remove_ne l k k' h]

end alist

/-! ### Claims about undo (C7, C10) -/

/-- Helper: `undo_cell_op` is the identity and reports `false` whenever
the observable log of the addressed cell is empty (unknown id, cell with
no log, or an emptied log). -/
theorem undo_of_empty_log (s : Store) (image_id : String) (cell_id : Nat)
    (h : s.get_cell_ops image_id cell_id = []) :
    s.undo_cell_op image_id cell_id = (false, s) := by
  unfold Store.undo_cell_op
  cases h1 : alist.lookup s.cell_ops image_id with
  | none => rfl
  | some table =>
      cases h2 : alist.lookup table cell_id with
      | none => simp [h2]
      | some log =>
          have hlog : log = [] := by
            unfold Store.get_cell_ops at h
            rw [h1] at h
            simpa [h2] using h
          simp [h2, hlog]

/-- C10: `undoOp` on an id or cell with no recorded operations — unknown
or deleted ids included — returns `false` without raising and leaves the
entire registry (image paths, grid parameters and all logs) unchanged. -/
theorem c10_undo_without_ops_is_noop (s : Store) (image_id : String)
    (cell_id : Nat) (h : s.get_cell_ops image_id cell_id = []) :
    s.undo_cell_op image_id cell_id = (false, s) :=
  undo_of_empty_log s image_id cell_id h

/-- Witness for C10: undo on a never-stored id in the fresh store. -/
theorem c10_undo_without_ops_is_noop_witness :
    Store.undo_cell_op emptyStore "ghost" 3 = (false, emptyStore) :=
  c10_undo_without_ops_is_noop emptyStore "ghost" 3 rfl

/-- C7: undo immediately after a successful append restores every
observable operation log (and the rest of the registry) to its state
before the append, reporting `true`; undo on an empty log reports
`false` and leaves the log empty. -/
theorem c7_undo_inverts_append :
    (∀ (s : Store) (image_id : String) (cell_id : Nat) (op : Op)
        (table : List (Nat × List Op)),
      alist.lookup s.cell_ops image_id = some table →
      ∃ s2 : Store, s.add_cell_op image_id cell_id op = some s2 ∧
        (s2.undo_cell_op image_id cell_id).fst = true ∧
        (∀ (id' : String) (cell' : Nat),
          ((s2.undo_cell_op image_id cell_id).snd).get_cell_ops id' cell' =
            s.get_cell_ops id' cell') ∧
        ((s2.undo_cell_op image_id cell_id).snd).image_paths = s.image_paths ∧
        ((s2.undo_cell_op image_id cell_id).snd).grid_params = s.grid_params) ∧
    (∀ (s : Store) (image_id : String) (cell_id : Nat),
      s.get_cell_ops image_id cell_id = [] →
      (s.undo_cell_op image_id cell_id).fst = false ∧
      ((s.undo_cell_op image_id cell_id).snd).get_cell_ops image_id cell_id
        = []) := by
  constructor
  · intro s image_id cell_id op table htab
    set log := (alist.lookup table cell_id).getD [] with hlogdef
    set t2 := alist.insert table cell_id (log ++ [op]) with ht2
    set ops2 := alist.insert s.cell_ops image_id t2 with hops2
    have hadd :
        s.add_cell_op image_id cell_id op = some { s with cell_ops := ops2 } := by
      unfold Store.add_cell_op
      rw [htab]
    refine ⟨_, hadd, ?_⟩
    have hundo :
        Store.undo_cell_op { s with cell_ops := ops2 } image_id cell_id =
        (true,
          { s with
              cell_ops := alist.insert ops2 image_id (alist.insert t2 cell_id (log ++ [op]).dropLast) }) := by
      unfold Store.undo_cell_op
      simp [hops2, ht2, alist.lookup_insert_self]
    rw [hundo]
    refine ⟨rfl, ?_, rfl, rfl⟩
    intro id' cell'
    unfold Store.get_cell_ops
    by_cases hid : id' = image_id
    · subst hid
      rw [alist.lookup_insert_self, htab]
      by_cases hcell : cell' = cell_id
      · subst hcell
        rw [List.dropLast_concat]
        simp [alist.lookup_insert_self, hlogdef]
      · simp only [Option.getD_some]
        rw [alist.lookup_insert_ne _ _ _ _ hcell, ht2,
          alist.lookup_insert_ne _ _ _ _ hcell]
    · rw [alist.lookup_insert_ne _ _ _ _ hid, hops2,
        alist.lookup_insert_ne _ _ _ _ hid]
  · intro s image_id cell_id h
    rw [undo_of_empty_log s image_id cell_id h]
    exact ⟨rfl, h⟩

/-- Witness for C7: append an erase to cell 0 of a freshly stored image,
then undo it. -/
theorem c7_undo_inverts_append_witness :
    ∃ s2 : Store, oneStore.add_cell_op "img" 0 Op.erase = some s2 ∧
      (s2.undo_cell_op "img" 0).fst = true ∧
      (∀ (id' : String) (cell' : Nat),
        ((s2.undo_cell_op "img" 0).snd).get_cell_ops id' cell' =
          oneStore.get_cell_ops id' cell') ∧
      ((s2.undo_cell_op "img" 0).snd).image_paths = oneStore.image_paths ∧
      ((s2.undo_cell_op "img" 0).snd).grid_params = oneStore.grid_params :=
  c7_undo_inverts_append.1 oneStore "img" 0 Op.erase [] rfl

/-! ### Claims about the slice route (C1, C9) -/

/-- C9: a successful slice stores the freshly computed grid for the id
(replacing any prior one, other ids untouched) and leaves every per-cell
operation log and the stored pixel buffer unchanged. -/
theorem c9_slice_preserves_logs_and_pixels (s s' : Store) (image_id : String)
    (data : SliceRequest) (g : Grid) (cells : List CellInfo)
    (h : slice_image s image_id data = (.ok g cells, s')) :
    s'.cell_ops = s.cell_ops ∧
    s'.image_paths = s.image_paths ∧
    s'.get_grid_params image_id = some g ∧
    ∀ id' : String, id' ≠ image_id →
      s'.get_grid_params id' = s.get_grid_params id' := by
  unfold slice_image at h
  have hmain : s' = s.set_grid_params image_id g := by
    split at h
    · simp at h
    · split at h
      · split at h
        · simp at h
        · obtain ⟨h1, h2⟩ := Prod.mk.inj h
          obtain ⟨hg, -⟩ := SliceOutcome.ok.inj h1
          rw [← h2, hg]
      · split at h
        · split at h
          · simp at h
          · obtain ⟨h1, h2⟩ := Prod.mk.inj h
            obtain ⟨hg, -⟩ := SliceOutcome.ok.inj h1
            rw [← h2, hg]
        · simp at h
  subst hmain
  refine ⟨rfl, rfl, ?_, ?_⟩
  · exact alist.lookup_insert_self _ _ _
  · intro id' hne
    exact alist.lookup_insert_ne _ _ _ _ hne

/-- Witness for C9: slice the stored 2×2 test image into a 2×2 grid. -/
theorem c9_slice_preserves_logs_and_pixels_witness :
    (oneStore.set_grid_params "img" ⟨2, 2, 1, 1⟩).cell_ops = oneStore.cell_ops ∧
    (oneStore.set_grid_params "img" ⟨2, 2, 1, 1⟩).image_paths = oneStore.image_paths ∧
    (oneStore.set_grid_params "img" ⟨2, 2, 1, 1⟩).get_grid_params "img" = some ⟨2, 2, 1, 1⟩ ∧
    ∀ id' : String, id' ≠ "img" →
      (oneStore.set_grid_params "img" ⟨2, 2, 1, 1⟩).get_grid_params id' =
        oneStore.get_grid_params id' :=
  c9_slice_preserves_logs_and_pixels oneStore _ "img" ⟨some 2, some 2, none, none⟩
    ⟨2, 2, 1, 1⟩ (mkCells ⟨2, 2, 1, 1⟩) rfl

/-- C1 counterexample: slicing a stored image with a supplied `cols = 0`
does not produce the `InvalidGridParameters` response — the division
`image.width // cols` raises an uncaught `ZeroDivisionError`. -/
theorem c1_zero_divisor_counterexample :
    (slice_image oneStore "img" ⟨some 2, some 0, none, none⟩).fst
        = SliceOutcome.zeroDivisionError ∧
    (slice_image oneStore "img" ⟨some 2, some 0, none, none⟩).fst
        ≠ SliceOutcome.invalidGridParameters := by
  exact ⟨rfl, by decide⟩

/-- C1 (amended): for a stored id, a slice request supplying neither
parameter pair fails with the distinct `InvalidGridParameters` response
(HTTP 400), but a supplied pair containing a zero divisor instead raises
an uncaught `ZeroDivisionError` (an unhandled exception, HTTP 500, not
the `InvalidGridParameters` response); in every such case nothing is
stored. -/
theorem c1_slice_grid_parameter_failures (s : Store) (image_id : String)
    (data : SliceRequest) (image : Img)
    (h : s.get_image image_id = some image) :
    ((data.rows = none ∨ data.cols = none) →
      (data.cellWidth = none ∨ data.cellHeight = none) →
      slice_image s image_id data = (.invalidGridParameters, s)) ∧
    (∀ r c : Nat, data.rows = some r → data.cols = some c → r = 0 ∨ c = 0 →
      slice_image s image_id data = (.zeroDivisionError, s)) ∧
    (∀ cw ch : Nat, (data.rows = none ∨ data.cols = none) →
      data.cellWidth = some cw → data.cellHeight = some ch →
      cw = 0 ∨ ch = 0 →
      slice_image s image_id data = (.zeroDivisionError, s)) := by
  refine ⟨?_, ?_, ?_⟩
  · intro h1 h2
    unfold slice_image
    rw [h]
    rcases hr : data.rows with _ | r <;> rcases hc : data.cols with _ | c <;>
      rcases hw : data.cellWidth with _ | cw <;>
      rcases hh : data.cellHeight with _ | ch <;>
      simp_all
  · intro r c hr hc hz
    unfold slice_image
    rw [h, hr, hc]
    rcases hz with hz | hz <;> subst hz <;> simp
  · intro cw ch h1 hcw hch hz
    unfold slice_image
    rw [h]
    rcases hr : data.rows with _ | r <;> rcases hc : data.cols with _ | c <;>
      rcases hz with hz | hz <;> simp_all

/-- Witness for C1 (amended): a request carrying only `cols` (no `rows`
and no cell-dimension pair) is answered with `InvalidGridParameters`. -/
theorem c1_slice_grid_parameter_failures_witness :
    slice_image oneStore "img" ⟨none, some 5, none, none⟩
      = (SliceOutcome.invalidGridParameters, oneStore) :=
  (c1_slice_grid_parameter_failures oneStore "img" ⟨none, some 5, none, none⟩
      testImg rfl).1 (Or.inl rfl) (Or.inl rfl)

/-- C2: evaluation of the code at the failing inputs. Deleting a
never-stored id reports success (`delete_image` returns `True`
unconditionally, so the route's `NotFound` branch is unreachable), and
after a successful delete `getPreview` and `slice` do report `NotFound`
but `applyOp` raises an uncaught `KeyError` instead. -/
theorem c2_delete_divergence :
    (emptyStore.delete_image "ghost").fst = true ∧
    get_image_preview c2Deleted "img" = PreviewOutcome.notFound ∧
    (slice_image c2Deleted "img" ⟨some 2, some 2, none, none⟩).fst
        = SliceOutcome.notFound ∧
    (apply_cell_operation c2Deleted "img" 0 ⟨some "erase", none⟩).fst
        = ApplyOutcome.keyError :=
  ⟨rfl, rfl, rfl, rfl⟩

/-! ### Claims about the renderer (C4, C5, C6) -/

/-- C4: rendering a stored cell whose operation log is empty yields
exactly the crop of the stored RGBA original at the cell's rectangle
`x = col * cellWidth`, `y = row * cellHeight` with `col = cell_id mod
cols`, `row = cell_id div cols` and extent `cellWidth × cellHeight`. -/
theorem c4_empty_log_renders_crop (s : Store) (image_id : String)
    (cell_id : Nat) (image : Img) (g : Grid)
    (himg : s.get_image image_id = some image)
    (hg : s.get_grid_params image_id = some g)
    (hlt : cell_id < g.rows * g.cols)
    (hops : s.get_cell_ops image_id cell_id = []) :
    Renderer.render_cell s image_id cell_id =
      .ok (image.crop ((cell_id % g.cols) * g.cellWidth)
        ((cell_id / g.cols) * g.cellHeight) g.cellWidth g.cellHeight) := by
  have hcols : ¬ g.cols = 0 := by
    intro h0
    rw [h0, Nat.mul_zero] at hlt
    exact Nat.not_lt_zero _ hlt
  unfold Renderer.render_cell
  rw [himg, hg]
  simp only [hcols, if_false, renderCellPure, hops, List.foldl_nil]

/-- Witness for C4: cell 1 of the sliced test image has no log and
renders as the crop at `(1, 0)`. -/
theorem c4_empty_log_renders_crop_witness :
    Renderer.render_cell gridStore "img" 1 =
      .ok (testImg.crop ((1 % 2) * 1) ((1 / 2) * 1) 1 1) :=
  c4_empty_log_renders_crop gridStore "img" 1 testImg ⟨2, 2, 1, 1⟩
    rfl rfl (by decide) rfl

/-- C6: applying the clockwise 180° rotation twice (the replay of two
consecutive `Rotate\x7b180\x7d` log entries) leaves the frame dimensions
and the pixel content at every in-frame coordinate unchanged. -/
theorem c6_rotate180_twice_is_identity (cw ch : Nat) (img : Img) :
    ((applyOp cw ch (applyOp cw ch img (Op.rotate Degree.d180))
        (Op.rotate Degree.d180)).width = img.width ∧
      (applyOp cw ch (applyOp cw ch img (Op.rotate Degree.d180))
        (Op.rotate Degree.d180)).height = img.height) ∧
    ∀ x y : Nat, x < img.width → y < img.height →
      (applyOp cw ch (applyOp cw ch img (Op.rotate Degree.d180))
        (Op.rotate Degree.d180)).px x y = img.px x y := by
  refine ⟨⟨rfl, rfl⟩, ?_⟩
  intro x y hx hy
  have hx1 : img.width - 1 - x < img.width := by omega
  have hy1 : img.height - 1 - y < img.height := by omega
  show (rotCW Degree.d180 (rotCW Degree.d180 img)).px x y = img.px x y
  simp only [rotCW]
  rw [if_pos ⟨hx, hy⟩, if_pos ⟨hx1, hy1⟩]
  congr 1 <;> omega

/-- Witness for C6: the double 180° rotation of the 2×2 test image,
checked at the in-frame coordinate `(1, 0)`. -/
theorem c6_rotate180_twice_is_identity_witness :
    (applyOp 2 2 (applyOp 2 2 testImg (Op.rotate Degree.d180))
      (Op.rotate Degree.d180)).px 1 0 = testImg.px 1 0 :=
  (c6_rotate180_twice_is_identity 2 2 testImg).2 1 0 (by decide) (by decide)

/-- Helper for C5: the replay loop preserves the invariant of being a
uniformly transparent `cw × ch` buffer — `erase` re-establishes it and
every rotation maps each output pixel either to an input pixel (which is
transparent) or to the transparent fill colour. -/
theorem foldl_applyOp_blank (cw ch : Nat) (ops : List Op) (acc : Img)
    (hw : acc.width = cw) (hh : acc.height = ch)
    (hpx : ∀ x y : Nat, acc.px x y = transparent) :
    (ops.foldl (applyOp cw ch) acc).width = cw ∧
    (ops.foldl (applyOp cw ch) acc).height = ch ∧
    ∀ x y : Nat, (ops.foldl (applyOp cw ch) acc).px x y = transparent := by
  induction ops generalizing acc with
  | nil => exact ⟨hw, hh, hpx⟩
  | cons op rest ih =>
      rw [List.foldl_cons]
      cases op with
      | erase => exact ih _ rfl rfl fun _ _ => rfl
      | rotate d =>
          cases d <;>
            exact ih _ hw hh fun x y => by simp [applyOp, rotCW, hpx]

/-- C5: when a cell's log contains an `Erase`, rendering replays the
remaining operations without error and yields a `cellWidth × cellHeight`
cell in which every pixel has alpha 0, regardless of the `Rotate`
operations appended after the erase. -/
theorem c5_erase_is_absorbing (s : Store) (image_id : String) (cell_id : Nat)
    (image : Img) (g : Grid) (pre post : List Op)
    (himg : s.get_image image_id = some image)
    (hg : s.get_grid_params image_id = some g)
    (hcols : g.cols ≠ 0)
    (hops : s.get_cell_ops image_id cell_id = pre ++ Op.erase :: post)
    (_hrot : ∀ op ∈ post, ∃ d : Degree, op = Op.rotate d) :
    ∃ c : Img, Renderer.render_cell s image_id cell_id = .ok c ∧
      c.width = g.cellWidth ∧ c.height = g.cellHeight ∧
      ∀ x y : Nat, x < g.cellWidth → y < g.cellHeight → (c.px x y).a = 0 := by
  refine ⟨renderCellPure s image_id image g cell_id
      (cell_id / g.cols) (cell_id % g.cols), ?_, ?_⟩
  · unfold Renderer.render_cell
    rw [himg, hg]
    simp only [hcols, if_false]
  · unfold renderCellPure
    rw [hops, List.foldl_append, List.foldl_cons]
    simp only [applyOp]
    have hblank := foldl_applyOp_blank g.cellWidth g.cellHeight post
      (Img.new g.cellWidth g.cellHeight transparent) rfl rfl (fun _ _ => rfl)
    exact ⟨hblank.1, hblank.2.1, fun x y _ _ => by rw [hblank.2.2 x y]; rfl⟩

/-- Witness for C5: cell 3 of `gridStore` carries the log
`[erase, rotate 90]`. -/
theorem c5_erase_is_absorbing_witness :
    ∃ c : Img, Renderer.render_cell gridStore "img" 3 = .ok c ∧
      c.width = 1 ∧ c.height = 1 ∧
      ∀ x y : Nat, x < 1 → y < 1 → (c.px x y).a = 0 :=
  c5_erase_is_absorbing gridStore "img" 3 testImg ⟨2, 2, 1, 1⟩
    [] [Op.rotate Degree.d90] rfl rfl (by decide) rfl
    (fun op hop => ⟨Degree.d90, by simpa using hop⟩)

/-! ### Claim about cell preview failure modes (C3) -/

/-- C3 counterexample: the out-of-range cell index 1 (the grid has
`rows * cols = 1` cells) is not answered with `NotFound` — the renderer
crops past the image bounds and returns encoded bytes. -/
theorem c3_out_of_range_counterexample :
    c3Store.get_grid_params "img" = some ⟨1, 1, 1, 1⟩ ∧
    (1 : Nat) ≥ 1 * 1 ∧
    RenderResult.isNotFound (get_cell_preview c3Store "img" 1) = false :=
  ⟨rfl, Nat.le_refl 1, rfl⟩

/-- C3 (amended): `getCellPreview` reports `NotFound` in exactly two
situations — the id has no stored image, or it has no grid parameters.
With both present and `cols ≠ 0` it always returns the rendered cell
bytes, even for an out-of-range index (the crop rectangle then lies
partly or fully outside the image and those pixels are transparent);
with a stored grid whose `cols = 0` it raises an uncaught
`ZeroDivisionError` instead. -/
theorem c3_cell_preview_not_found_characterization (s : Store)
    (image_id : String) (cell_id : Nat) :
    (get_cell_preview s image_id cell_id = .notFound ↔
      s.get_image image_id = none ∨ s.get_grid_params image_id = none) ∧
    (∀ (image : Img) (g : Grid), s.get_image image_id = some image →
      s.get_grid_params image_id = some g → g.cols ≠ 0 →
      get_cell_preview s image_id cell_id =
        .ok (renderCellPure s image_id image g cell_id
          (cell_id / g.cols) (cell_id % g.cols))) ∧
    (∀ (image : Img) (g : Grid), s.get_image image_id = some image →
      s.get_grid_params image_id = some g → g.cols = 0 →
      get_cell_preview s image_id cell_id = .zeroDivisionError) := by
  refine ⟨?_, ?_, ?_⟩
  · unfold get_cell_preview Renderer.render_cell
    cases himg : s.get_image image_id with
    | none => simp
    | some image =>
        cases hg : s.get_grid_params image_id with
        | none => simp
        | some g =>
            by_cases hz : g.cols = 0 <;> simp [hz]
  · intro image g himg hg hz
    unfold get_cell_preview Renderer.render_cell
    rw [himg, hg]
    simp only [hz, if_false]
  · intro image g himg hg hz
    unfold get_cell_preview Renderer.render_cell
    rw [himg, hg]
    simp only [hz, if_true]

/-- Witness for C3 (amended): the out-of-range index 1 on `c3Store` is
rendered, not rejected. -/
theorem c3_cell_preview_not_found_characterization_witness :
    get_cell_preview c3Store "img" 1 =
      .ok (renderCellPure c3Store "img" testImg ⟨1, 1, 1, 1⟩ 1 (1 / 1) (1 % 1)) :=
  (c3_cell_preview_not_found_characterization c3Store "img" 1).2.1 testImg
    ⟨1, 1, 1, 1⟩ rfl rfl (by decide)

/-! ### Claim about the atlas renderer (C8) -/

/-- Helper: the defining equation of a pasted pixel. -/
theorem paste_px (dst src : Img) (x y u v : Nat) :
    (dst.paste src x y).px u v =
      if x ≤ u ∧ u < x + src.width ∧ y ≤ v ∧ v < y + src.height then
        src.px (u - x) (v - y)
      else dst.px u v := rfl

/-- Helper: inside the pasted rectangle the source pixel wins. -/
theorem paste_inside (dst src : Img) (x y dx dy : Nat)
    (hdx : dx < src.width) (hdy : dy < src.height) :
    (dst.paste src x y).px (x + dx) (y + dy) = src.px dx dy := by
  rw [paste_px, if_pos (by omega :
    x ≤ x + dx ∧ x + dx < x + src.width ∧ y ≤ y + dy ∧ y + dy < y + src.height)]
  congr 1 <;> omega

/-- Helper: outside the pasted rectangle the destination pixel is kept. -/
theorem paste_miss (dst src : Img) (x y u v : Nat)
    (h : ¬ (x ≤ u ∧ u < x + src.width ∧ y ≤ v ∧ v < y + src.height)) :
    (dst.paste src x y).px u v = dst.px u v := by
  rw [paste_px, if_neg h]

/-- Helper: the replay loop preserves the cell frame dimensions. -/
theorem foldl_applyOp_dims (cw ch : Nat) (ops : List Op) (acc : Img)
    (hw : acc.width = cw) (hh : acc.height = ch) :
    (ops.foldl (applyOp cw ch) acc).width = cw ∧
    (ops.foldl (applyOp cw ch) acc).height = ch := by
  induction ops generalizing acc with
  | nil => exact ⟨hw, hh⟩
  | cons op rest ih =>
      rw [List.foldl_cons]
      cases op with
      | erase => exact ih _ rfl rfl
      | rotate d => cases d <;> exact ih _ hw hh

/-- Helper: every rendered cell has the grid's cell dimensions. -/
theorem renderCellPure_dims (s : Store) (image_id : String) (image : Img)
    (g : Grid) (cell_id row col : Nat) :
    (renderCellPure s image_id image g cell_id row col).width = g.cellWidth ∧
    (renderCellPure s image_id image g cell_id row col).height = g.cellHeight :=
  foldl_applyOp_dims _ _ _ _ rfl rfl

/-- Helper: a point of the form `c * cw + dx` with `dx < cw` lies in the
half-open band `[b * cw, b * cw + cw)` only for `b = c`. -/
theorem band_unique (cw c b dx : Nat) (hdx : dx < cw)
    (h1 : b * cw ≤ c * cw + dx) (h2 : c * cw + dx < b * cw + cw) : b = c := by
  have hcw : 0 < cw := Nat.lt_of_le_of_lt (Nat.zero_le _) hdx
  have e1 : (c * cw + dx) / cw = c := by
    rw [Nat.add_comm, Nat.add_mul_div_right _ _ hcw, Nat.div_eq_of_lt hdx,
      Nat.zero_add]
  have hle : b ≤ (c * cw + dx) / cw := (Nat.le_div_iff_mul_le hcw).mpr h1
  have hlt : (c * cw + dx) / cw < b + 1 := by
    apply Nat.div_lt_of_lt_mul
    calc c * cw + dx < b * cw + cw := h2
      _ = cw * (b + 1) := by ring
  omega

/-- Helper: membership in the row-major traversal list. -/
theorem mem_cellList (rows cols r c : Nat) :
    (r, c) ∈ cellList rows cols ↔ r < rows ∧ c < cols := by
  simp [cellList]

/-- Helper: pasting preserves the canvas dimensions across the atlas
fold. -/
theorem foldl_atlasStep_dims (s : Store) (image_id : String) (image : Img)
    (g : Grid) (L : List (Nat × Nat)) (acc : Img) :
    (L.foldl (atlasStep s image_id image g) acc).width = acc.width ∧
    (L.foldl (atlasStep s image_id image g) acc).height = acc.height := by
  induction L generalizing acc with
  | nil => exact ⟨rfl, rfl⟩
  | cons rc rest ih =>
      rw [List.foldl_cons]
      exact ⟨(ih _).1, (ih _).2⟩

/-- Helper: after the atlas fold, the pixel at offset `(dx, dy)` inside
the rectangle of grid cell `(r, c)` equals that cell's independently
replayed pixel once `(r, c)` has been pasted, and is untouched by the
pastes of all other cells (their rectangles are disjoint from it). -/
theorem atlas_fold_px (s : Store) (image_id : String) (image : Img) (g : Grid)
    (r c dx dy : Nat) (hdx : dx < g.cellWidth) (hdy : dy < g.cellHeight) :
    ∀ (L : List (Nat × Nat)) (acc : Img),
      ((r, c) ∈ L →
        (L.foldl (atlasStep s image_id image g) acc).px
            (c * g.cellWidth + dx) (r * g.cellHeight + dy) =
          (renderCellPure s image_id image g (r * g.cols + c) r c).px dx dy) ∧
      ((r, c) ∉ L →
        (L.foldl (atlasStep s image_id image g) acc).px
            (c * g.cellWidth + dx) (r * g.cellHeight + dy) =
          acc.px (c * g.cellWidth + dx) (r * g.cellHeight + dy)) := by
  intro L
  induction L with
  | nil =>
      exact fun acc => ⟨fun h => absurd h (List.not_mem_nil _), fun _ => rfl⟩
  | cons rc rest ih =>
      intro acc
      obtain ⟨r', c'⟩ := rc
      by_cases hrc : (r', c') = (r, c)
      · rw [hrc]
        constructor
        · intro _
          by_cases hmem : (r, c) ∈ rest
          · rw [List.foldl_cons]
            exact (ih _).1 hmem
          · rw [List.foldl_cons, (ih _).2 hmem]
            unfold atlasStep
            have hd := renderCellPure_dims s image_id image g (r * g.cols + c) r c
            rw [paste_inside _ _ _ _ dx dy (hd.1 ▸ hdx) (hd.2 ▸ hdy)]
        · intro hno
          exact absurd (List.mem_cons_self _ _) hno
      · have hmiss :
            (atlasStep s image_id image g acc (r', c')).px
                (c * g.cellWidth + dx) (r * g.cellHeight + dy) =
              acc.px (c * g.cellWidth + dx) (r * g.cellHeight + dy) := by
          unfold atlasStep
          apply paste_miss
          intro hcon
          obtain ⟨h1, h2, h3, h4⟩ := hcon
          have hd := renderCellPure_dims s image_id image g
            ((r', c').1 * g.cols + (r', c').2) (r', c').1 (r', c').2
          rw [hd.1] at h2
          rw [hd.2] at h4
          have hc' : c' = c := band_unique g.cellWidth c c' dx hdx h1 h2
          have hr' : r' = r := band_unique g.cellHeight r r' dy hdy h3 h4
          exact hrc (by rw [hc', hr'])
        constructor
        · intro hmem
          rcases List.mem_cons.mp hmem with heq | hmem2
          · exact absurd heq.symm hrc
          · rw [List.foldl_cons]
            exact (ih _).1 hmem2
        · intro hno
          have hno2 : (r, c) ∉ rest := fun hm => hno (List.mem_cons_of_mem _ hm)
          rw [List.foldl_cons, (ih _).2 hno2, hmiss]

/-- C8: `renderAtlas` on a stored image with a grid returns a canvas of
dimensions `(cols * cellWidth) × (rows * cellHeight)` — built by pasting
every cell in row-major order over a fully transparent canvas, pastes
overwriting — in which the rectangle of every in-range cell is
pixel-identical to that cell's independent `render_cell` output. -/
theorem c8_atlas_matches_cells (s : Store) (image_id : String) (image : Img)
    (g : Grid) (himg : s.get_image image_id = some image)
    (hg : s.get_grid_params image_id = some g) :
    Renderer.render_atlas s image_id = some (atlasPure s image_id image g) ∧
    (atlasPure s image_id image g).width = g.cols * g.cellWidth ∧
    (atlasPure s image_id image g).height = g.rows * g.cellHeight ∧
    ∀ row col dx dy : Nat, row < g.rows → col < g.cols →
      dx < g.cellWidth → dy < g.cellHeight →
      Renderer.render_cell s image_id (row * g.cols + col) =
        .ok (renderCellPure s image_id image g (row * g.cols + col) row col) ∧
      (atlasPure s image_id image g).px
          (col * g.cellWidth + dx) (row * g.cellHeight + dy) =
        (renderCellPure s image_id image g (row * g.cols + col) row col).px
          dx dy := by
  refine ⟨?_, ?_, ?_, ?_⟩
  · unfold Renderer.render_atlas
    rw [himg, hg]
  · exact (foldl_atlasStep_dims s image_id image g (cellList g.rows g.cols)
      (Img.new (g.cols * g.cellWidth) (g.rows * g.cellHeight) transparent)).1
  · exact (foldl_atlasStep_dims s image_id image g (cellList g.rows g.cols)
      (Img.new (g.cols * g.cellWidth) (g.rows * g.cellHeight) transparent)).2
  · intro row col dx dy hrow hcol hdx hdy
    have hcols : ¬ g.cols = 0 := by
      intro h0
      rw [h0] at hcol
      exact Nat.not_lt_zero _ hcol
    have hcpos : 0 < g.cols := Nat.pos_of_ne_zero hcols
    have hdiv : (row * g.cols + col) / g.cols = row := by
      rw [Nat.add_comm, Nat.add_mul_div_right _ _ hcpos,
        Nat.div_eq_of_lt hcol, Nat.zero_add]
    have hmod : (row * g.cols + col) % g.cols = col := by
      rw [Nat.add_comm, Nat.add_mul_mod_self_right, Nat.mod_eq_of_lt hcol]
    constructor
    · unfold Renderer.render_cell
      rw [himg, hg]
      simp only [hcols, if_false]
      rw [hdiv, hmod]
    · exact (atlas_fold_px s image_id image g row col dx dy hdx hdy
        (cellList g.rows g.cols)
        (Img.new (g.cols * g.cellWidth) (g.rows * g.cellHeight) transparent)).1
        ((mem_cellList g.rows g.cols row col).mpr ⟨hrow, hcol⟩)

/-- Witness for C8: the atlas of the sliced test image agrees with the
independently rendered cell `(1, 1)` at its top-left pixel. -/
theorem c8_atlas_matches_cells_witness :
    (atlasPure gridStore "img" testImg ⟨2, 2, 1, 1⟩).px (1 * 1 + 0) (1 * 1 + 0) =
      (renderCellPure gridStore "img" testImg ⟨2, 2, 1, 1⟩ (1 * 2 + 1) 1 1).px
        0 0 :=
  ((c8_atlas_matches_cells gridStore "img" testImg ⟨2, 2, 1, 1⟩ rfl rfl).2.2.2
      1 1 0 0 (by decide) (by decide) (by decide) (by decide)).2
